import Mathlib

/-!
Shallow embedding of `src/config/index.js` (code-gov-api configuration
resolver) and verification of the frozen claims about it.

Modelling conventions:
* Process environment variables are `Option String` fields of `ProcEnv`
  (`none` = unset).  JavaScript truthiness of an env-var value is
  `truthy`: set and nonempty.
* The cfenv application environment (`cfenv.getAppEnv()`) is the
  `CloudFoundryEnv` structure; `getServiceCreds` is its `services`
  function, returning `none` when no service with the given name is
  bound (cfenv returns `null` there, and reading `.uri` of `null`
  throws a TypeError — modelled as `Except.error ()`).
* `parseInt` is modelled by `jsParseInt` returning `JSNum` (`int` or
  `nan`).
* The JavaScript expression `x && x === 'true'` on an env var produces
  `undefined` when `x` is unset, the string `""` when `x` is the empty
  string, and a boolean otherwise; this is the `JSBoolish` type.
* `config.PORT` is either the raw env-var string or a number from the
  platform binding — the `PortVal` sum.
* The two swagger JSON documents are opaque on-disk inputs passed in as
  `SwaggerDoc` values (host field plus opaque remainder).
* `dotenv.config` (executed only in local mode) merges a `.env` file
  into the process environment, existing variables winning; the file is
  a second `ProcEnv` and the post-call environment is `applyDotenv`.
-/

namespace CodeGovConfig

/-- Result of JavaScript `parseInt`: an integer or NaN. -/
inductive JSNum where
  | int : Int → JSNum
  | nan : JSNum
deriving Repr, DecidableEq

/-- Value of the JavaScript expression `x && x === 'true'` where `x` is an
environment variable: `undefined` when unset, the empty string when set to
`""`, otherwise a boolean. -/
inductive JSBoolish where
  | undef : JSBoolish
  | str : String → JSBoolish
  | bool : Bool → JSBoolish
deriving Repr, DecidableEq

/-- The resolved port: the raw string of the `PORT` env var, or a number
coming from the platform binding / the default. -/
inductive PortVal where
  | pstr : String → PortVal
  | pnum : Nat → PortVal
deriving Repr, DecidableEq

/-- String interpolation of a `PortVal` (as in the template literals
building `ALLOWED_DOMAINS` and the api url). -/
def PortVal.render : PortVal → String
  | .pstr s => s
  | .pnum n => toString n

/-- Service credentials returned by `cfenv`'s `getServiceCreds`. -/
structure ServiceCreds where
  uri : Option String
deriving Repr, DecidableEq

/-- Snapshot of `cfenv.getAppEnv()`: local-mode flag, assigned port,
application uris, and the bound-service credential lookup
(`none` models cfenv returning `null` for an unknown service name). -/
structure CloudFoundryEnv where
  isLocal : Bool
  port : Option Nat
  appUris : Option (List String)
  services : String → Option ServiceCreds

/-- The process environment restricted to the variables the resolver
reads.  `none` means the variable is unset. -/
structure ProcEnv where
  PORT : Option String := none
  LOGGER_LEVEL : Option String := none
  ELASTICSEARCH_SERVICE_NAME : Option String := none
  ES_URI : Option String := none
  API_URL : Option String := none
  USE_HSTS : Option String := none
  HSTS_MAX_AGE : Option String := none
  HSTS_PRELOAD : Option String := none
  HSTS_SUBDOMAINS : Option String := none
  GET_REMOTE_METADATA : Option String := none
  REMOTE_METADATA_LOCATION : Option String := none
  NODE_ENV : Option String := none
deriving Repr, DecidableEq

/-- An on-disk swagger JSON document: the `host` field the resolver
overwrites, plus the rest of the document treated as an opaque blob. -/
structure SwaggerDoc where
  host : String
  body : String
deriving Repr, DecidableEq

/-- JavaScript truthiness of an env-var value: set and nonempty. -/
def truthy (v : Option String) : Bool :=
  match v with
  | none => false
  | some s => !(s == "")

/-- One variable of the dotenv merge: an already-present process variable
wins over the `.env` file entry (dotenv never overrides existing keys). -/
def envOr (a b : Option String) : Option String :=
  match a with
  | some v => some v
  | none => b

/-- Effect of `dotenv.config` on the process environment: file entries
fill in only the unset variables. -/
def applyDotenv (e f : ProcEnv) : ProcEnv where
  PORT := envOr e.PORT f.PORT
  LOGGER_LEVEL := envOr e.LOGGER_LEVEL f.LOGGER_LEVEL
  ELASTICSEARCH_SERVICE_NAME := envOr e.ELASTICSEARCH_SERVICE_NAME f.ELASTICSEARCH_SERVICE_NAME
  ES_URI := envOr e.ES_URI f.ES_URI
  API_URL := envOr e.API_URL f.API_URL
  USE_HSTS := envOr e.USE_HSTS f.USE_HSTS
  HSTS_MAX_AGE := envOr e.HSTS_MAX_AGE f.HSTS_MAX_AGE
  HSTS_PRELOAD := envOr e.HSTS_PRELOAD f.HSTS_PRELOAD
  HSTS_SUBDOMAINS := envOr e.HSTS_SUBDOMAINS f.HSTS_SUBDOMAINS
  GET_REMOTE_METADATA := envOr e.GET_REMOTE_METADATA f.GET_REMOTE_METADATA
  REMOTE_METADATA_LOCATION := envOr e.REMOTE_METADATA_LOCATION f.REMOTE_METADATA_LOCATION
  NODE_ENV := envOr e.NODE_ENV f.NODE_ENV

/-- The process environment after `getConfig`'s conditional dotenv step:
in local mode the `.env` file is merged in, otherwise unchanged. -/
def effectiveEnv (e : ProcEnv) (cf : CloudFoundryEnv) (f : ProcEnv) : ProcEnv :=
  if cf.isLocal then applyDotenv e f else e

/-- Whitespace characters skipped by `parseInt` (common ASCII subset). -/
def isJsSpace (c : Char) : Bool :=
  c == ' ' || c == '\t' || c == '\n' || c == '\r'

/-- Hexadecimal digit test for `parseInt`'s `0x` form. -/
def isHexDigitChar (c : Char) : Bool :=
  c.isDigit || ('a' ≤ c && c ≤ 'f') || ('A' ≤ c && c ≤ 'F')

/-- Numeric value of a (hex) digit character. -/
def hexVal (c : Char) : Nat :=
  if c.isDigit then c.toNat - 48
  else if 'a' ≤ c && c ≤ 'f' then c.toNat - 87
  else if 'A' ≤ c && c ≤ 'F' then c.toNat - 55
  else 0

/-- JavaScript `parseInt(s)` (radix argument omitted): skip leading
whitespace, optional sign, optional `0x`/`0X` switching to base 16, then
the longest prefix of digits; NaN when that prefix is empty. -/
def jsParseInt (s : String) : JSNum :=
  let cs := s.toList.dropWhile isJsSpace
  let signNeg := cs.head? == some '-'
  let cs := if cs.head? == some '-' || cs.head? == some '+' then cs.tail else cs
  let hexSplit :=
    match cs with
    | '0' :: 'x' :: t => (true, t)
    | '0' :: 'X' :: t => (true, t)
    | t => (false, t)
  let ds :=
    if hexSplit.1 then hexSplit.2.takeWhile isHexDigitChar
    else hexSplit.2.takeWhile Char.isDigit
  if ds = [] then JSNum.nan
  else
    let base : Nat := if hexSplit.1 then 16 else 10
    let n := ds.foldl (fun a c => a * base + hexVal c) 0
    JSNum.int (if signNeg then -(n : Int) else (n : Int))

/-- Minimal regular-expression syntax covering the pattern
`(1\.0)(\.\d)?` used for `UPDATE_REPO_REGEX`. -/
inductive Reg where
  | rchar : Char → Reg
  | rdigit : Reg
  | rseq : Reg → Reg → Reg
  | ropt : Reg → Reg
deriving Repr, DecidableEq

/-- Continuation-passing matcher: `r.accept l k` is true when some split
`l = m ++ rest` has `m` matching `r` and `k rest` true. -/
def Reg.accept : Reg → List Char → (List Char → Bool) → Bool
  | .rchar c, l, k =>
    match l with
    | [] => false
    | x :: rest => x == c && k rest
  | .rdigit, l, k =>
    match l with
    | [] => false
    | x :: rest => x.isDigit && k rest
  | .rseq a b, l, k => a.accept l fun rest => b.accept rest k
  | .ropt a, l, k => a.accept l k || k l

/-- Unanchored search, as JavaScript `RegExp.prototype.test`: try a match
starting at every position. -/
def Reg.searchFrom (r : Reg) : List Char → Bool
  | [] => r.accept [] fun _ => true
  | c :: rest => (r.accept (c :: rest) fun _ => true) || r.searchFrom rest

/-- `regex.test(s)` for the embedded regex syntax. -/
def Reg.test (r : Reg) (s : String) : Bool :=
  r.searchFrom s.toList

/-- The literal `/(1\.0)(\.\d)?/` from line 118 of the source. -/
def updateRepoRegex : Reg :=
  .rseq (.rseq (.rchar '1') (.rseq (.rchar '.') (.rchar '0')))
    (.ropt (.rseq (.rchar '.') .rdigit))

/-- The `prod_envs` list from `getConfig`. -/
def prodEnvs : List String := ["prod", "production"]

/-- The fixed `TERM_TYPES_TO_SEARCH` list. -/
def termTypesToSearch : List String :=
  ["name", "agency.name", "agency.acronym", "tags", "languages"]

/-- The fixed `VALID_QUERY_PARAMS` list. -/
def validQueryParams : List String :=
  ["license", "name", "agency.name", "permissions.usageType",
   "agency.acronym", "status", "vcs", "measurementType.method",
   "language", "created", "lastModified", "metadataLastUpdated"]

/-- `path.join(path.dirname(__dirname), 'config/testing_agency_metadata.json')`
relative to the repository root. -/
def testingAgencyMetadataPath : String := "src/config/testing_agency_metadata.json"

/-- `path.join(path.dirname(__dirname), 'config/agency_metadata.json')`
relative to the repository root. -/
def agencyMetadataPath : String := "src/config/agency_metadata.json"

/-- The service name looked up in non-local mode:
`process.env.ELASTICSEARCH_SERVICE_NAME` when truthy, else the fixed
default `'code_gov_elasticsearch'`. -/
def elasticsearchServiceName (e : ProcEnv) : String :=
  if truthy e.ELASTICSEARCH_SERVICE_NAME then e.ELASTICSEARCH_SERVICE_NAME.getD ""
  else "code_gov_elasticsearch"

/-- `getElasticsearchUri` (source lines 11–24).  In non-local mode the
credential lookup may return `null` (here `none`), in which case reading
`elasticSearchCredentials.uri` throws — modelled as `Except.error ()`. -/
def getElasticsearchUri (e : ProcEnv) (cf : CloudFoundryEnv) : Except Unit String :=
  if !cf.isLocal then
    match cf.services (elasticsearchServiceName e) with
    | none => Except.error ()
    | some creds =>
      Except.ok (if truthy creds.uri then creds.uri.getD "" else "http://localhost:9200")
  else
    Except.ok (if truthy e.ES_URI then e.ES_URI.getD "" else "http://localhost:9200")

/-- `getPort` (source lines 31–37): the `PORT` env var string when truthy,
else the platform-binding port when truthy (nonzero), else `3000`. -/
def getPort (e : ProcEnv) (cf : CloudFoundryEnv) : PortVal :=
  if truthy e.PORT then PortVal.pstr (e.PORT.getD "")
  else
    match cf.port with
    | some p => if p == 0 then PortVal.pnum 3000 else PortVal.pnum p
    | none => PortVal.pnum 3000

/-- `getAppFilesDirectories` (source lines 43–57), returning the
`AGENCY_ENDPOINTS_FILE` value: the remote location when both
`GET_REMOTE_METADATA` and `REMOTE_METADATA_LOCATION` are truthy, else the
testing path when `NODE_ENV === 'testing'`, else the standard path. -/
def getAppFilesDirectories (e : ProcEnv) : String :=
  if truthy e.GET_REMOTE_METADATA && truthy e.REMOTE_METADATA_LOCATION then
    e.REMOTE_METADATA_LOCATION.getD ""
  else if e.NODE_ENV == some "testing" then testingAgencyMetadataPath
  else agencyMetadataPath

/-- `getSwaggerConf` (source lines 65–72): pick the production or
development document and overwrite its `host` with the api url when that
is truthy, else with `'api.code.gov'`. -/
def getSwaggerConf (isProd : Bool) (apiUrl : String) (swaggerProd swaggerDev : SwaggerDoc) :
    SwaggerDoc :=
  let d := if isProd then swaggerProd else swaggerDev
  { d with host := if !(apiUrl == "") then apiUrl else "api.code.gov" }

/-- The api url computation from `getConfig` (source lines 129–133):
`API_URL` env var when truthy, else the first application uri plus `/api`
(an empty uri array yields the string `undefined`, as in JavaScript),
else a `0.0.0.0:<port>` literal. -/
def computeApiUrl (e : ProcEnv) (cf : CloudFoundryEnv) (port : PortVal) : String :=
  if truthy e.API_URL then e.API_URL.getD ""
  else
    match cf.appUris with
    | some uris => uris.headD "undefined" ++ "/api"
    | none => "0.0.0.0:" ++ port.render

/-- The JavaScript expression `x && x === 'true'` applied to an env var
(source lines 121, 122, 125). -/
def andTrueCheck (x : Option String) : JSBoolish :=
  match x with
  | none => JSBoolish.undef
  | some s => if s == "" then JSBoolish.str "" else JSBoolish.bool (s == "true")

/-- The resolver's output record (the `config` object of `getConfig`). -/
structure Config where
  prod_envs : List String
  isProd : Bool
  LOGGER_LEVEL : String
  TERM_TYPES_TO_SEARCH : List String
  VALID_QUERY_PARAMS : List String
  UPDATE_REPO_REGEX : Reg
  USE_HSTS : Bool
  HSTS_MAX_AGE : JSNum
  HSTS_PRELOAD : JSBoolish
  HSTS_SUBDOMAINS : JSBoolish
  PORT : PortVal
  GET_REMOTE_METADATA : JSBoolish
  ES_HOST : String
  AGENCY_ENDPOINTS_FILE : String
  SWAGGER_DOCUMENT : SwaggerDoc
  ALLOWED_DOMAINS : List String
deriving Repr, DecidableEq

/-- The record `getConfig` builds once the Elasticsearch uri `es` has been
obtained; `e` is the post-dotenv process environment.  Field expressions
are the source's lines 80–141 verbatim. -/
def mkConfig (env : String) (e : ProcEnv) (cf : CloudFoundryEnv) (es : String)
    (swaggerProd swaggerDev : SwaggerDoc) : Config :=
  let isProd := prodEnvs.contains env
  let port := getPort e cf
  let apiUrl := computeApiUrl e cf port
  { prod_envs := prodEnvs
    isProd := isProd
    LOGGER_LEVEL :=
      if truthy e.LOGGER_LEVEL then e.LOGGER_LEVEL.getD ""
      else if isProd then "INFO" else "DEBUG"
    TERM_TYPES_TO_SEARCH := termTypesToSearch
    VALID_QUERY_PARAMS := validQueryParams
    UPDATE_REPO_REGEX := updateRepoRegex
    USE_HSTS := if truthy e.USE_HSTS then e.USE_HSTS == some "true" else isProd
    HSTS_MAX_AGE :=
      if truthy e.HSTS_MAX_AGE then jsParseInt (e.HSTS_MAX_AGE.getD "")
      else JSNum.int 31536000
    HSTS_PRELOAD := andTrueCheck e.HSTS_PRELOAD
    HSTS_SUBDOMAINS := andTrueCheck e.HSTS_SUBDOMAINS
    PORT := port
    GET_REMOTE_METADATA := andTrueCheck e.GET_REMOTE_METADATA
    ES_HOST := es
    AGENCY_ENDPOINTS_FILE := getAppFilesDirectories e
    SWAGGER_DOCUMENT := getSwaggerConf isProd apiUrl swaggerProd swaggerDev
    ALLOWED_DOMAINS :=
      ["http://localhost:" ++ port.render,
       "http://127.0.0.1:" ++ port.render,
       if isProd then "https://api.data.gov" else "*"] }

/-- `getConfig` (source lines 79–144) together with its side effect on the
process environment: the first component is the process environment after
the conditional dotenv load, the second the returned record, or
`Except.error ()` when the non-local credential lookup throws. -/
def resolveFull (env : String) (procEnv : ProcEnv) (cf : CloudFoundryEnv)
    (dotenvFile : ProcEnv) (swaggerProd swaggerDev : SwaggerDoc) :
    ProcEnv × Except Unit Config :=
  let e := effectiveEnv procEnv cf dotenvFile
  (e, (getElasticsearchUri e cf).map fun es => mkConfig env e cf es swaggerProd swaggerDev)

/-- The value `getConfig` returns (or the error it throws). -/
def getConfig (env : String) (procEnv : ProcEnv) (cf : CloudFoundryEnv)
    (dotenvFile : ProcEnv) (swaggerProd swaggerDev : SwaggerDoc) : Except Unit Config :=
  (resolveFull env procEnv cf dotenvFile swaggerProd swaggerDev).2

/-! ### Spec-side definitions (for refinement comparisons) -/

/-- Modelled from the claim about `UPDATE_REPO_REGEX`: the set of strings
of the form `major.minor` with an optional `.patch` component, anchored
to major version `1`, with no surrounding extra characters (minor and
patch are nonempty digit runs). -/
def claimVersionMatch (s : String) : Bool :=
  match s.toList with
  | '1' :: '.' :: rest =>
    let minor := rest.takeWhile Char.isDigit
    let after := rest.dropWhile Char.isDigit
    !minor.isEmpty &&
      (after.isEmpty ||
        (match after with
         | '.' :: p => !p.isEmpty && p.all Char.isDigit
         | _ => false))
  | _ => false

/-- Modelled from the amended metadata-path claim: the remote location
when `GET_REMOTE_METADATA` is set to any nonempty string (not necessarily
`"true"`) and `REMOTE_METADATA_LOCATION` is set nonempty; else the
testing-variant path exactly when `NODE_ENV` is `"testing"`, else the
standard path. -/
def amendedAgencyFile (e : ProcEnv) : String :=
  match e.GET_REMOTE_METADATA, e.REMOTE_METADATA_LOCATION with
  | some g, some r =>
    if !(g == "") && !(r == "") then r
    else if e.NODE_ENV == some "testing" then testingAgencyMetadataPath
    else agencyMetadataPath
  | _, _ =>
    if e.NODE_ENV == some "testing" then testingAgencyMetadataPath
    else agencyMetadataPath

/-- Modelled from the original metadata-path claim: the remote location
exactly when `GET_REMOTE_METADATA` literally equals `"true"` and
`REMOTE_METADATA_LOCATION` is set; otherwise the testing-variant path
when `NODE_ENV` equals `"testing"` and the standard path for every other
`NODE_ENV` value. -/
def claimAgencyFile (e : ProcEnv) : String :=
  if e.GET_REMOTE_METADATA == some "true" && e.REMOTE_METADATA_LOCATION.isSome then
    e.REMOTE_METADATA_LOCATION.getD ""
  else if e.NODE_ENV == some "testing" then testingAgencyMetadataPath
  else agencyMetadataPath

/-- Modelled from the amended strict-`"true"` claim: the boolean `true`
when the variable is exactly `"true"`, the boolean `false` for every
other set nonempty value, the undefined value when unset, and the empty
string when set to the empty string. -/
def amendedStrictTrue (v : Option String) : JSBoolish :=
  match v with
  | none => JSBoolish.undef
  | some "" => JSBoolish.str ""
  | some s => JSBoolish.bool (s = "true")

/-- A `JSBoolish` value is defined when it is not `undefined` (a `null`
never arises for these fields). -/
def JSBoolish.isDefinedVal : JSBoolish → Bool
  | JSBoolish.undef => false
  | _ => true

/-- Definedness of every field of the record.  In this embedding only the
three fields computed by `x && x === 'true'` (`HSTS_PRELOAD`,
`HSTS_SUBDOMAINS`, `GET_REMOTE_METADATA`) inhabit a type with an
undefined value; every other field's type (`Bool`, `String`, `JSNum`,
`PortVal`, lists, `Reg`, `SwaggerDoc`) has no undefined inhabitant, so
those fields are defined by construction. -/
def Config.allFieldsDefined (c : Config) : Bool :=
  c.HSTS_PRELOAD.isDefinedVal && c.HSTS_SUBDOMAINS.isDefinedVal &&
    c.GET_REMOTE_METADATA.isDefinedVal

/-! ### Concrete instances used by witnesses and counterexamples -/

/-- The process environment with every variable unset. -/
def emptyEnv : ProcEnv := {}

/-- A local-mode platform binding with no port, no uris, no services. -/
def localCf : CloudFoundryEnv :=
  { isLocal := true, port := none, appUris := none, services := fun _ => none }

/-- A non-local binding where the default service name is bound to an
Elasticsearch credential. -/
def boundCf : CloudFoundryEnv :=
  { isLocal := false, port := none, appUris := none,
    services := fun n =>
      if n == "code_gov_elasticsearch" then some ⟨some "http://es.internal:9200"⟩ else none }

/-- A non-local binding with no bound services at all. -/
def unboundCf : CloudFoundryEnv :=
  { isLocal := false, port := none, appUris := none, services := fun _ => none }

/-- A non-local binding like `boundCf` that also reports port `8080`. -/
def boundCf8080 : CloudFoundryEnv :=
  { boundCf with port := some 8080 }

/-- A concrete production swagger document. -/
def swaggerProd0 : SwaggerDoc := ⟨"old-prod-host", "prod-body"⟩

/-- A concrete development swagger document. -/
def swaggerDev0 : SwaggerDoc := ⟨"old-dev-host", "dev-body"⟩

/-! ### Shared lemmas -/

/-- Eliminating a successful `getConfig` run: the Elasticsearch lookup
succeeded and the result is `mkConfig` over the post-dotenv environment. -/
theorem getConfig_ok_elim {env : String} {e : ProcEnv} {cf : CloudFoundryEnv}
    {f : ProcEnv} {pd dd : SwaggerDoc} {c : Config}
    (h : getConfig env e cf f pd dd = Except.ok c) :
    ∃ es, getElasticsearchUri (effectiveEnv e cf f) cf = Except.ok es ∧
      c = mkConfig env (effectiveEnv e cf f) cf es pd dd := by
  unfold getConfig resolveFull at h
  simp only at h
  cases hes : getElasticsearchUri (effectiveEnv e cf f) cf with
  | error u => rw [hes] at h; simp [Except.map] at h
  | ok es =>
    rw [hes] at h
    simp [Except.map] at h
    exact ⟨es, rfl, h.symm⟩

/-- Filling unset variables twice from the same file changes nothing. -/
theorem envOr_absorb (a b : Option String) : envOr (envOr a b) b = envOr a b := by
  cases a <;> cases b <;> rfl

/-- The dotenv merge is idempotent in the process-environment argument. -/
theorem applyDotenv_absorb (e f : ProcEnv) :
    applyDotenv (applyDotenv e f) f = applyDotenv e f := by
  cases e
  cases f
  simp [applyDotenv, envOr_absorb]

/-- Running the conditional dotenv step from an environment it already
produced changes nothing. -/
theorem effectiveEnv_absorb (e : ProcEnv) (cf : CloudFoundryEnv) (f : ProcEnv) :
    effectiveEnv (effectiveEnv e cf f) cf f = effectiveEnv e cf f := by
  unfold effectiveEnv
  cases h : cf.isLocal with
  | false => simp
  | true => simp [applyDotenv_absorb]

/-- A character list starts with the three characters `1`, `.`, `0`. -/
def startsWith10 (l : List Char) : Bool :=
  match l with
  | a :: b :: c :: _ => a == '1' && b == '.' && c == '0'
  | _ => false

/-- A character list contains `1`, `.`, `0` consecutively somewhere. -/
def containsOneDotZero : List Char → Bool
  | [] => false
  | c :: rest => startsWith10 (c :: rest) || containsOneDotZero rest

/-- A match of `(1\.0)(\.\d)?` starting at the head of the list succeeds
exactly when the list starts with `1.0`: the optional `(\.\d)` group can
always be skipped, so it never blocks acceptance. -/
theorem accept_updateRepo_eq (l : List Char) :
    (updateRepoRegex.accept l fun _ => true) = startsWith10 l := by
  match l with
  | [] => rfl
  | [a] => simp [updateRepoRegex, Reg.accept, startsWith10]
  | [a, b] => simp [updateRepoRegex, Reg.accept, startsWith10]
  | a :: b :: c :: t =>
    simp [updateRepoRegex, Reg.accept, startsWith10, Bool.or_true, Bool.and_assoc]

/-- Unanchored search for `(1\.0)(\.\d)?` is containment of `1.0`. -/
theorem searchFrom_eq_contains (l : List Char) :
    updateRepoRegex.searchFrom l = containsOneDotZero l := by
  induction l with
  | nil => rfl
  | cons c t ih => simp [Reg.searchFrom, containsOneDotZero, accept_updateRepo_eq, ih]

/-- Characterization of `startsWith10`. -/
theorem startsWith10_iff (l : List Char) :
    startsWith10 l = true ↔ ∃ b, l = '1' :: '.' :: '0' :: b := by
  match l with
  | [] => simp [startsWith10]
  | [a] => simp [startsWith10]
  | [a, b] => simp [startsWith10]
  | a :: b :: c :: t => simp [startsWith10, and_assoc]

/-- Characterization of `containsOneDotZero` as substring containment. -/
theorem containsOneDotZero_iff (l : List Char) :
    containsOneDotZero l = true ↔ ∃ a b, l = a ++ '1' :: '.' :: '0' :: b := by
  induction l with
  | nil =>
    simp only [containsOneDotZero, Bool.false_eq_true, false_iff]
    rintro ⟨a, b, h⟩
    cases a <;> simp_all
  | cons c t ih =>
    simp only [containsOneDotZero, Bool.or_eq_true, startsWith10_iff, ih]
    constructor
    · rintro (⟨b, h⟩ | ⟨a, b, rfl⟩)
      · exact ⟨[], b, h⟩
      · exact ⟨c :: a, b, rfl⟩
    · rintro ⟨a, b, h⟩
      cases a with
      | nil => exact Or.inl ⟨b, by simpa using h⟩
      | cons x a' =>
        injection h with h1 h2
        exact Or.inr ⟨a', b, h2⟩

/-! ### Field projections of `mkConfig` -/

theorem mkConfig_isProd (env : String) (e : ProcEnv) (cf : CloudFoundryEnv)
    (es : String) (pd dd : SwaggerDoc) :
    (mkConfig env e cf es pd dd).isProd = prodEnvs.contains env := rfl

theorem mkConfig_UPDATE_REPO_REGEX (env : String) (e : ProcEnv) (cf : CloudFoundryEnv)
    (es : String) (pd dd : SwaggerDoc) :
    (mkConfig env e cf es pd dd).UPDATE_REPO_REGEX = updateRepoRegex := rfl

theorem mkConfig_HSTS_MAX_AGE (env : String) (e : ProcEnv) (cf : CloudFoundryEnv)
    (es : String) (pd dd : SwaggerDoc) :
    (mkConfig env e cf es pd dd).HSTS_MAX_AGE =
      (if truthy e.HSTS_MAX_AGE then jsParseInt (e.HSTS_MAX_AGE.getD "")
       else JSNum.int 31536000) := rfl

theorem mkConfig_HSTS_PRELOAD (env : String) (e : ProcEnv) (cf : CloudFoundryEnv)
    (es : String) (pd dd : SwaggerDoc) :
    (mkConfig env e cf es pd dd).HSTS_PRELOAD = andTrueCheck e.HSTS_PRELOAD := rfl

theorem mkConfig_HSTS_SUBDOMAINS (env : String) (e : ProcEnv) (cf : CloudFoundryEnv)
    (es : String) (pd dd : SwaggerDoc) :
    (mkConfig env e cf es pd dd).HSTS_SUBDOMAINS = andTrueCheck e.HSTS_SUBDOMAINS := rfl

theorem mkConfig_GET_REMOTE_METADATA (env : String) (e : ProcEnv) (cf : CloudFoundryEnv)
    (es : String) (pd dd : SwaggerDoc) :
    (mkConfig env e cf es pd dd).GET_REMOTE_METADATA = andTrueCheck e.GET_REMOTE_METADATA := rfl

theorem mkConfig_PORT (env : String) (e : ProcEnv) (cf : CloudFoundryEnv)
    (es : String) (pd dd : SwaggerDoc) :
    (mkConfig env e cf es pd dd).PORT = getPort e cf := rfl

theorem mkConfig_AGENCY_ENDPOINTS_FILE (env : String) (e : ProcEnv) (cf : CloudFoundryEnv)
    (es : String) (pd dd : SwaggerDoc) :
    (mkConfig env e cf es pd dd).AGENCY_ENDPOINTS_FILE = getAppFilesDirectories e := rfl

theorem mkConfig_ALLOWED_DOMAINS (env : String) (e : ProcEnv) (cf : CloudFoundryEnv)
    (es : String) (pd dd : SwaggerDoc) :
    (mkConfig env e cf es pd dd).ALLOWED_DOMAINS =
      ["http://localhost:" ++ (getPort e cf).render,
       "http://127.0.0.1:" ++ (getPort e cf).render,
       if prodEnvs.contains env then "https://api.data.gov" else "*"] := rfl

/-- Definedness of an `x && x === 'true'` result tracks whether the
variable was set at all. -/
theorem isDefinedVal_andTrueCheck (x : Option String) :
    (andTrueCheck x).isDefinedVal = x.isSome := by
  cases x with
  | none => rfl
  | some s =>
    simp only [andTrueCheck, Option.isSome_some]
    split <;> rfl

/-- The source's metadata-path selection agrees with the amended claim's
description of it. -/
theorem getAppFilesDirectories_eq_amended (e : ProcEnv) :
    getAppFilesDirectories e = amendedAgencyFile e := by
  unfold getAppFilesDirectories amendedAgencyFile
  cases hg : e.GET_REMOTE_METADATA with
  | none => simp [truthy]
  | some g =>
    cases hr : e.REMOTE_METADATA_LOCATION with
    | none => simp [truthy]
    | some r => simp [truthy]

/-! ### The claims -/

/-- C1 (amended): for every environment-name string, `resolve` returns a
`ConfigurationRecord` normally — missing inputs replaced by their
documented defaults — whenever the platform binding reports local mode,
or reports non-local mode with the credential lookup actually returning a
bound service.  (In the remaining case, non-local mode with no service
bound under the looked-up name, the lookup yields null and reading its
`uri` raises an error instead of applying a default.) -/
theorem claim1_amended (env : String) (e : ProcEnv) (cf : CloudFoundryEnv)
    (f : ProcEnv) (pd dd : SwaggerDoc)
    (h : cf.isLocal = true ∨
      (cf.services (elasticsearchServiceName (effectiveEnv e cf f))).isSome = true) :
    ∃ c, getConfig env e cf f pd dd = Except.ok c := by
  have hes : ∃ es, getElasticsearchUri (effectiveEnv e cf f) cf = Except.ok es := by
    unfold getElasticsearchUri
    cases hcf : cf.isLocal with
    | true => simp
    | false =>
      simp only [hcf, Bool.not_false, if_true]
      rcases h with hl | hs
      · rw [hcf] at hl; cases hl
      · rcases Option.isSome_iff_exists.mp hs with ⟨creds, hc⟩
        rw [hc]
        exact ⟨_, rfl⟩
  rcases hes with ⟨es, hes⟩
  refine ⟨mkConfig env (effectiveEnv e cf f) cf es pd dd, ?_⟩
  show (getElasticsearchUri (effectiveEnv e cf f) cf).map
      (fun es => mkConfig env (effectiveEnv e cf f) cf es pd dd) = _
  rw [hes]
  rfl

/-- C1 witness: a concrete local-mode run returns a record. -/
theorem claim1_witness :
    ∃ c, getConfig "development" emptyEnv localCf emptyEnv swaggerProd0 swaggerDev0 =
      Except.ok c :=
  claim1_amended "development" emptyEnv localCf emptyEnv swaggerProd0 swaggerDev0 (Or.inl rfl)

/-- C1 counterexample: with a non-local binding that has no bound service,
`resolve` signals an error to the caller instead of returning a record,
refuting the claim's "no error is ever signaled" at this concrete input. -/
theorem claim1_counterexample :
    getConfig "development" emptyEnv unboundCf emptyEnv swaggerProd0 swaggerDev0 =
        Except.error () ∧
      ¬ ∃ c, getConfig "development" emptyEnv unboundCf emptyEnv swaggerProd0 swaggerDev0 =
        Except.ok c := by
  refine ⟨rfl, ?_⟩
  rintro ⟨c, hc⟩
  have h0 : getConfig "development" emptyEnv unboundCf emptyEnv swaggerProd0 swaggerDev0 =
      Except.error () := rfl
  rw [h0] at hc
  exact Except.noConfusion hc

/-- C2 (amended): for a run of `resolve` that returns a record, every
field listed in §4 is defined exactly when each of the `HSTS_PRELOAD`,
`HSTS_SUBDOMAINS` and `GET_REMOTE_METADATA` environment variables is set
in the post-dotenv environment; when one of these three is unset the
corresponding field is the JavaScript value `undefined` (all other listed
fields are always defined). -/
theorem claim2_amended (env : String) (e : ProcEnv) (cf : CloudFoundryEnv) (f : ProcEnv)
    (pd dd : SwaggerDoc) (c : Config)
    (h : getConfig env e cf f pd dd = Except.ok c) :
    c.allFieldsDefined =
      ((effectiveEnv e cf f).HSTS_PRELOAD.isSome &&
        (effectiveEnv e cf f).HSTS_SUBDOMAINS.isSome &&
        (effectiveEnv e cf f).GET_REMOTE_METADATA.isSome) := by
  rcases getConfig_ok_elim h with ⟨es, -, rfl⟩
  simp [Config.allFieldsDefined, mkConfig_HSTS_PRELOAD, mkConfig_HSTS_SUBDOMAINS,
    mkConfig_GET_REMOTE_METADATA, isDefinedVal_andTrueCheck]

/-- C2 witness: with the three `x && x === 'true'` variables set, a
concrete run returns a record with every field defined. -/
theorem claim2_witness :
    ∃ c, getConfig "development"
        { HSTS_PRELOAD := some "true", HSTS_SUBDOMAINS := some "false",
          GET_REMOTE_METADATA := some "" }
        boundCf emptyEnv swaggerProd0 swaggerDev0 = Except.ok c ∧
      c.allFieldsDefined =
        ((effectiveEnv
            { HSTS_PRELOAD := some "true", HSTS_SUBDOMAINS := some "false",
              GET_REMOTE_METADATA := some "" } boundCf emptyEnv).HSTS_PRELOAD.isSome &&
          (effectiveEnv
            { HSTS_PRELOAD := some "true", HSTS_SUBDOMAINS := some "false",
              GET_REMOTE_METADATA := some "" } boundCf emptyEnv).HSTS_SUBDOMAINS.isSome &&
          (effectiveEnv
            { HSTS_PRELOAD := some "true", HSTS_SUBDOMAINS := some "false",
              GET_REMOTE_METADATA := some "" } boundCf emptyEnv).GET_REMOTE_METADATA.isSome) :=
  ⟨_, rfl, claim2_amended "development" _ boundCf emptyEnv swaggerProd0 swaggerDev0 _ rfl⟩

/-- C2 counterexample: with `HSTS_PRELOAD` unset, the returned record's
`HSTS_PRELOAD` field is the JavaScript value `undefined`, refuting the
claim that every §4 field is defined for every environment-variable
state. -/
theorem claim2_counterexample :
    (getConfig "development" emptyEnv boundCf emptyEnv swaggerProd0 swaggerDev0).map
        Config.HSTS_PRELOAD = Except.ok JSBoolish.undef ∧
      JSBoolish.isDefinedVal JSBoolish.undef = false := ⟨rfl, rfl⟩

/-- C3 (amended): the resolved `AGENCY_ENDPOINTS_FILE` equals the
`REMOTE_METADATA_LOCATION` string exactly when `GET_REMOTE_METADATA` is
set to any nonempty string (truthiness, not the literal `"true"`) and
`REMOTE_METADATA_LOCATION` is set nonempty; otherwise it is the
testing-variant path when `NODE_ENV` equals `"testing"` and the standard
path for every other `NODE_ENV` value. -/
theorem claim3_amended (env : String) (e : ProcEnv) (cf : CloudFoundryEnv) (f : ProcEnv)
    (pd dd : SwaggerDoc) (c : Config)
    (h : getConfig env e cf f pd dd = Except.ok c) :
    c.AGENCY_ENDPOINTS_FILE = amendedAgencyFile (effectiveEnv e cf f) := by
  rcases getConfig_ok_elim h with ⟨es, -, rfl⟩
  rw [mkConfig_AGENCY_ENDPOINTS_FILE]
  exact getAppFilesDirectories_eq_amended _

/-- The environment-variable state refuting C3: the toggle set to the
string false together with a remote location. -/
def envC3 : ProcEnv :=
  { GET_REMOTE_METADATA := some "false",
    REMOTE_METADATA_LOCATION := some "http://remote.example/meta.json" }

/-- C3 witness: a concrete run's metadata path matches the amended rule. -/
theorem claim3_witness :
    ∃ c, getConfig "development" envC3 boundCf emptyEnv swaggerProd0 swaggerDev0 =
        Except.ok c ∧
      c.AGENCY_ENDPOINTS_FILE = amendedAgencyFile (effectiveEnv envC3 boundCf emptyEnv) :=
  ⟨_, rfl, claim3_amended "development" envC3 boundCf emptyEnv swaggerProd0 swaggerDev0 _ rfl⟩

/-- C3 counterexample: with `GET_REMOTE_METADATA="false"` (not the literal
`"true"`) and a remote location set, the code still selects the remote
location while the claim requires the standard path. -/
theorem claim3_counterexample :
    (getConfig "development" envC3 boundCf emptyEnv swaggerProd0 swaggerDev0).map
        Config.AGENCY_ENDPOINTS_FILE = Except.ok "http://remote.example/meta.json" ∧
      claimAgencyFile envC3 = agencyMetadataPath ∧
      ("http://remote.example/meta.json" : String) ≠ agencyMetadataPath := by
  refine ⟨rfl, rfl, ?_⟩
  decide

/-- C4 (amended): the resolved `HSTS_PRELOAD` is the boolean true when
the variable is exactly the string `"true"` and the boolean false for
every other set nonempty value; when the variable is unset the field is
the JavaScript value `undefined`, and when it is set to the empty string
the field is the empty string (both distinct from the boolean false).
The same holds for `HSTS_SUBDOMAINS`; neither falls back to the
production flag. -/
theorem claim4_amended (env : String) (e : ProcEnv) (cf : CloudFoundryEnv) (f : ProcEnv)
    (pd dd : SwaggerDoc) (c : Config)
    (h : getConfig env e cf f pd dd = Except.ok c) :
    ((effectiveEnv e cf f).HSTS_PRELOAD = none → c.HSTS_PRELOAD = JSBoolish.undef) ∧
    ((effectiveEnv e cf f).HSTS_PRELOAD = some "" → c.HSTS_PRELOAD = JSBoolish.str "") ∧
    (∀ v, (effectiveEnv e cf f).HSTS_PRELOAD = some v → v ≠ "" →
      c.HSTS_PRELOAD = JSBoolish.bool (v == "true")) ∧
    ((effectiveEnv e cf f).HSTS_SUBDOMAINS = none → c.HSTS_SUBDOMAINS = JSBoolish.undef) ∧
    ((effectiveEnv e cf f).HSTS_SUBDOMAINS = some "" → c.HSTS_SUBDOMAINS = JSBoolish.str "") ∧
    (∀ v, (effectiveEnv e cf f).HSTS_SUBDOMAINS = some v → v ≠ "" →
      c.HSTS_SUBDOMAINS = JSBoolish.bool (v == "true")) := by
  rcases getConfig_ok_elim h with ⟨es, -, rfl⟩
  rw [mkConfig_HSTS_PRELOAD, mkConfig_HSTS_SUBDOMAINS]
  refine ⟨fun hp => ?_, fun hp => ?_, fun v hv hne => ?_,
    fun hp => ?_, fun hp => ?_, fun v hv hne => ?_⟩
  · rw [hp]; rfl
  · rw [hp]; rfl
  · rw [hv]; simp [andTrueCheck, hne]
  · rw [hp]; rfl
  · rw [hp]; rfl
  · rw [hv]; simp [andTrueCheck, hne]

/-- The environment-variable state for the C4 witness. -/
def envC4 : ProcEnv := { HSTS_PRELOAD := some "TRUE", HSTS_SUBDOMAINS := some "true" }

/-- C4 witness: `"TRUE"` yields the boolean false, `"true"` the boolean
true, on a concrete run. -/
theorem claim4_witness :
    ∃ c, getConfig "development" envC4 boundCf emptyEnv swaggerProd0 swaggerDev0 =
        Except.ok c ∧
      c.HSTS_PRELOAD = JSBoolish.bool ("TRUE" == "true") ∧
      c.HSTS_SUBDOMAINS = JSBoolish.bool ("true" == "true") :=
  ⟨_, rfl,
    (claim4_amended "development" envC4 boundCf emptyEnv swaggerProd0 swaggerDev0 _
      rfl).2.2.1 "TRUE" rfl (by decide),
    (claim4_amended "development" envC4 boundCf emptyEnv swaggerProd0 swaggerDev0 _
      rfl).2.2.2.2.2 "true" rfl (by decide)⟩

/-- C4 counterexample: when the variable is unset the field is
`undefined`, and when it is the empty string the field is the empty
string — neither is the boolean false the claim asserts. -/
theorem claim4_counterexample :
    (getConfig "test" emptyEnv boundCf emptyEnv swaggerProd0 swaggerDev0).map
        Config.HSTS_PRELOAD = Except.ok JSBoolish.undef ∧
      JSBoolish.undef ≠ JSBoolish.bool false ∧
      (getConfig "test" { HSTS_PRELOAD := some "" } boundCf emptyEnv swaggerProd0
          swaggerDev0).map Config.HSTS_PRELOAD = Except.ok (JSBoolish.str "") ∧
      JSBoolish.str "" ≠ JSBoolish.bool false := by
  refine ⟨rfl, ?_, rfl, ?_⟩ <;> decide

/-- C5 (confirmed): the production flag of a returned record is true
exactly when the environment-name argument is the string prod or the
string production, and false for every other string. -/
theorem claim5_confirmed (env : String) (e : ProcEnv) (cf : CloudFoundryEnv) (f : ProcEnv)
    (pd dd : SwaggerDoc) (c : Config)
    (h : getConfig env e cf f pd dd = Except.ok c) :
    c.isProd = (env == "prod" || env == "production") := by
  rcases getConfig_ok_elim h with ⟨es, -, rfl⟩
  rw [mkConfig_isProd]
  simp only [prodEnvs, List.contains, List.elem]
  cases h1 : env == "prod" <;> cases h2 : env == "production" <;> simp [h1, h2]

/-- C5 witness: a concrete run with the name staging has a false
production flag. -/
theorem claim5_witness :
    ∃ c, getConfig "staging" emptyEnv boundCf emptyEnv swaggerProd0 swaggerDev0 =
        Except.ok c ∧
      c.isProd = ("staging" == "prod" || "staging" == "production") :=
  ⟨_, rfl, claim5_confirmed "staging" emptyEnv boundCf emptyEnv swaggerProd0 swaggerDev0 _ rfl⟩

/-- C6 (confirmed): when the `PORT` variable is unset and the binding
reports port 8080 the resolved `PORT` is the number 8080; when `PORT` is
set to the string 5000 the resolved `PORT` is that string — numerically
5000, rendering as the string 5000 — regardless of the binding's port;
and when `PORT` is unset and the binding supplies no port the resolved
`PORT` is the number 3000. -/
theorem claim6_confirmed (env : String) (e : ProcEnv) (cf : CloudFoundryEnv) (f : ProcEnv)
    (pd dd : SwaggerDoc) (c : Config)
    (h : getConfig env e cf f pd dd = Except.ok c) :
    ((effectiveEnv e cf f).PORT = none → cf.port = some 8080 →
      c.PORT = PortVal.pnum 8080) ∧
    ((effectiveEnv e cf f).PORT = some "5000" →
      c.PORT = PortVal.pstr "5000" ∧ c.PORT.render = "5000") ∧
    ((effectiveEnv e cf f).PORT = none → cf.port = none →
      c.PORT = PortVal.pnum 3000) := by
  rcases getConfig_ok_elim h with ⟨es, -, rfl⟩
  rw [mkConfig_PORT]
  refine ⟨fun hp hcp => ?_, fun hp => ?_, fun hp hcp => ?_⟩
  · unfold getPort; rw [hp, hcp]; rfl
  · unfold getPort; rw [hp]; exact ⟨rfl, rfl⟩
  · unfold getPort; rw [hp, hcp]; rfl

/-- C6 witness: a concrete run with `PORT` unset and binding port 8080
resolves the port to 8080. -/
theorem claim6_witness :
    ∃ c, getConfig "development" emptyEnv boundCf8080 emptyEnv swaggerProd0 swaggerDev0 =
        Except.ok c ∧ c.PORT = PortVal.pnum 8080 :=
  ⟨_, rfl,
    (claim6_confirmed "development" emptyEnv boundCf8080 emptyEnv swaggerProd0 swaggerDev0 _
      rfl).1 rfl rfl⟩

/-- C7 (confirmed): the resolved `ALLOWED_DOMAINS` of any returned record
has exactly 3 entries — the two localhost variants built from the
resolved port, then the wildcard when the production flag is false and
the fixed production origin when it is true. -/
theorem claim7_confirmed (env : String) (e : ProcEnv) (cf : CloudFoundryEnv) (f : ProcEnv)
    (pd dd : SwaggerDoc) (c : Config)
    (h : getConfig env e cf f pd dd = Except.ok c) :
    c.ALLOWED_DOMAINS.length = 3 ∧
    c.ALLOWED_DOMAINS =
      ["http://localhost:" ++ c.PORT.render,
       "http://127.0.0.1:" ++ c.PORT.render,
       if c.isProd then "https://api.data.gov" else "*"] := by
  rcases getConfig_ok_elim h with ⟨es, -, rfl⟩
  exact ⟨rfl, rfl⟩

/-- C7 witness: a concrete production run has the 3-entry list ending in
the fixed production origin. -/
theorem claim7_witness :
    ∃ c, getConfig "prod" emptyEnv boundCf emptyEnv swaggerProd0 swaggerDev0 =
        Except.ok c ∧
      c.ALLOWED_DOMAINS.length = 3 ∧
      c.ALLOWED_DOMAINS =
        ["http://localhost:" ++ c.PORT.render,
         "http://127.0.0.1:" ++ c.PORT.render,
         if c.isProd then "https://api.data.gov" else "*"] := by
  refine ⟨_, rfl, ?_, ?_⟩
  · exact (claim7_confirmed "prod" emptyEnv boundCf emptyEnv swaggerProd0 swaggerDev0 _ rfl).1
  · exact (claim7_confirmed "prod" emptyEnv boundCf emptyEnv swaggerProd0 swaggerDev0 _ rfl).2

/-- C8 (amended): the resolved `UPDATE_REPO_REGEX` is the fixed pattern
`(1\.0)(\.\d)?`, independent of all inputs; being unanchored, it accepts
a string exactly when the string contains `1.0` as a substring anywhere
(the optional `.patch` group never affects acceptance), rather than
accepting exactly the anchored `1.minor[.patch]` version strings. -/
theorem claim8_amended :
    (∀ (env : String) (e : ProcEnv) (cf : CloudFoundryEnv) (f : ProcEnv)
        (pd dd : SwaggerDoc) (c : Config), getConfig env e cf f pd dd = Except.ok c →
        c.UPDATE_REPO_REGEX = updateRepoRegex) ∧
    (∀ s : String, updateRepoRegex.test s = true ↔
      ∃ a b, s.toList = a ++ '1' :: '.' :: '0' :: b) := by
  constructor
  · intro env e cf f pd dd c h
    rcases getConfig_ok_elim h with ⟨es, -, rfl⟩
    rw [mkConfig_UPDATE_REPO_REGEX]
  · intro s
    rw [Reg.test, searchFrom_eq_contains, containsOneDotZero_iff]

/-- C8 witness: the regex of a concrete run is the fixed pattern, and its
acceptance of a concrete string is containment of `1.0`. -/
theorem claim8_witness :
    (∃ c, getConfig "development" emptyEnv boundCf emptyEnv swaggerProd0 swaggerDev0 =
        Except.ok c ∧ c.UPDATE_REPO_REGEX = updateRepoRegex) ∧
    (updateRepoRegex.test "1.0.3" = true ↔
      ∃ a b, ("1.0.3" : String).toList = a ++ '1' :: '.' :: '0' :: b) :=
  ⟨⟨_, rfl,
      claim8_amended.1 "development" emptyEnv boundCf emptyEnv swaggerProd0 swaggerDev0 _ rfl⟩,
    claim8_amended.2 "1.0.3"⟩

/-- C8 counterexample: the unanchored pattern accepts `x1.0`, which has
surrounding extra characters, and rejects `1.5`, which is a
`major.minor` string with major component 1 — both contradicting the
claimed accepted set. -/
theorem claim8_counterexample :
    updateRepoRegex.test "x1.0" = true ∧ claimVersionMatch "x1.0" = false ∧
      claimVersionMatch "1.5" = true ∧ updateRepoRegex.test "1.5" = false :=
  ⟨rfl, rfl, rfl, rfl⟩

/-- C9 (confirmed): with the same environment-name argument, the same
`.env` file contents, the same platform-binding snapshot and the same
on-disk swagger documents, a second call of `resolve` — run from the
process environment the first call left behind — produces a structurally
identical result, and leaves the process environment unchanged. -/
theorem claim9_confirmed (env : String) (e : ProcEnv) (cf : CloudFoundryEnv) (f : ProcEnv)
    (pd dd : SwaggerDoc) :
    getConfig env (resolveFull env e cf f pd dd).1 cf f pd dd =
        getConfig env e cf f pd dd ∧
      (resolveFull env (resolveFull env e cf f pd dd).1 cf f pd dd).1 =
        (resolveFull env e cf f pd dd).1 := by
  constructor
  · show (getElasticsearchUri (effectiveEnv (effectiveEnv e cf f) cf f) cf).map
        (fun es => mkConfig env (effectiveEnv (effectiveEnv e cf f) cf f) cf es pd dd) = _
    rw [effectiveEnv_absorb]
    rfl
  · show effectiveEnv (effectiveEnv e cf f) cf f = effectiveEnv e cf f
    exact effectiveEnv_absorb e cf f

/-- C10 (confirmed): when `HSTS_MAX_AGE` is set to a nonempty string, the
resolved field is exactly `parseInt` of that string — NaN whenever the
leading characters do not parse as an integer, as for abc — and the
documented default 31536000 is used exactly when the variable is unset or
empty. -/
theorem claim10_confirmed (env : String) (e : ProcEnv) (cf : CloudFoundryEnv) (f : ProcEnv)
    (pd dd : SwaggerDoc) (c : Config)
    (h : getConfig env e cf f pd dd = Except.ok c) :
    ((effectiveEnv e cf f).HSTS_MAX_AGE = none ∨
        (effectiveEnv e cf f).HSTS_MAX_AGE = some "" →
      c.HSTS_MAX_AGE = JSNum.int 31536000) ∧
    (∀ s, (effectiveEnv e cf f).HSTS_MAX_AGE = some s → s ≠ "" →
      c.HSTS_MAX_AGE = jsParseInt s) ∧
    (∀ s, (effectiveEnv e cf f).HSTS_MAX_AGE = some s → s ≠ "" →
      jsParseInt s = JSNum.nan → c.HSTS_MAX_AGE = JSNum.nan) ∧
    jsParseInt "abc" = JSNum.nan := by
  rcases getConfig_ok_elim h with ⟨es, -, rfl⟩
  rw [mkConfig_HSTS_MAX_AGE]
  refine ⟨?_, ?_, ?_, rfl⟩
  · rintro (hp | hp) <;> rw [hp] <;> rfl
  · intro s hs hne
    rw [hs]
    simp [truthy, hne]
  · intro s hs hne hnan
    rw [hs]
    simp [truthy, hne, hnan]

/-- The environment-variable state for the C10 witness. -/
def envC10 : ProcEnv := { HSTS_MAX_AGE := some "abc" }

/-- C10 witness: a concrete run with `HSTS_MAX_AGE` set to abc yields
NaN, not the default. -/
theorem claim10_witness :
    ∃ c, getConfig "development" envC10 boundCf emptyEnv swaggerProd0 swaggerDev0 =
        Except.ok c ∧ c.HSTS_MAX_AGE = JSNum.nan :=
  ⟨_, rfl,
    (claim10_confirmed "development" envC10 boundCf emptyEnv swaggerProd0 swaggerDev0 _
      rfl).2.2.1 "abc" rfl (by decide) rfl⟩

end CodeGovConfig
